import Mathlib

/-
  Verification development for the GitHub-dashboard cache service
  (server component in `src/lib/github-api.ts`, Express + Redis segment).

  Modelling conventions:
  * Wall-clock instants are integers in milliseconds (the value of `Date.now()`
    / `Date.parse`).  UTC calendar days are integers counting days since the
    Unix epoch; the source's `formatUtcDate` is injective on UTC-midnight
    dates, so day numbers encode "YYYY-MM-DD" strings faithfully, and
    `current.setUTCDate(current.getUTCDate() - offset)` applied to a
    UTC-midnight date subtracts exactly `offset` days (JS `Date` normalises
    through epoch milliseconds).
  * Fallible async operations are embedded as `Except`/`Option` values; the
    outcome of each external effect (GitHub fetch, Redis call, file read) is a
    parameter of the function that awaits it.
  * String-transforming helpers whose internals no claim touches
    (`encodeURIComponent`, `Date.prototype.toISOString`, `decodeBase64Utf8`,
    `sanitizeReadmeContent`, `formatUtcDate`) are carried as opaque function
    parameters inside `Config`, applied exactly where the source applies them.
-/

set_option maxHeartbeats 1000000

namespace Dashboard

/-- The `fetched_at` field of a cached payload's `meta`, as seen by
`isPayloadFresh`: the source first tests `!payload?.meta?.fetched_at`
(field absent or falsy → `missing`), then `Number.isNaN(Date.parse(...))`
(`unparsable`), else works with the parsed millisecond timestamp. -/
inductive FetchedAt where
  | missing
  | unparsable
  | parsed (t : Int)
deriving Repr, DecidableEq

/-- One day of commit activity (`{ date, commit_count }`); `date` is the UTC
calendar day as a day number (see header conventions). -/
structure CommitDayActivity where
  date : Int
  commit_count : Nat
deriving Repr, DecidableEq

/-- The `meta` block produced by `buildPayload`. -/
structure PayloadMeta where
  username : String
  fetched_at : FetchedAt
  source : String
  cache_ttl_minutes : Nat
deriving Repr, DecidableEq

/-- Output of `normalizeUser`. -/
structure NormalizedUser where
  login : String
  avatar_url : String
  html_url : String
  name : Option String
  bio : Option String
  followers : Int
  following : Int
  public_repos : Int
deriving Repr, DecidableEq

/-- Output of `normalizeRepo`.  `pushed_at` is the parsed timestamp
(`Date.parse(repo.pushed_at)`), which is all the source ever computes from
the field (the sort comparator). -/
structure NormalizedRepo where
  id : Int
  name : String
  html_url : String
  description : Option String
  created_at : String
  updated_at : String
  pushed_at : Int
  language : Option String
  stargazers_count : Int
  open_issues_count : Int
  forks_count : Int
  topics : List String
  archived : Bool
deriving Repr, DecidableEq

/-- A cached dashboard payload as built by `buildPayload`: `meta` plus the
four data fields at top level. -/
structure Payload where
  meta : PayloadMeta
  user : NormalizedUser
  repos : List NormalizedRepo
  readme : String
  commit_history : List CommitDayActivity
deriving Repr, DecidableEq

/-- The `owner` object embedded in a raw repo of the local snapshot file.
Each field is `none` when absent or not a string (`typeof owner?.login ===
'string'` style guards in the source). -/
structure RawOwner where
  login : Option String
  avatar_url : Option String
  html_url : Option String
deriving Repr, DecidableEq

/-- A raw repository object from the GitHub API or the local snapshot file,
holding exactly the fields `normalizeRepo` and the fallback owner heuristic
read.  `topics` is `none` when not an array; `owner` is `none` when the field
is absent/undefined (`typeof` not `'object'`), `some none` when it is JS
`null` (note `typeof null === 'object'`, so the source's find matches it),
and `some (some o)` for a real object. -/
structure RawRepo where
  id : Int
  name : String
  html_url : String
  description : Option String
  created_at : String
  updated_at : String
  pushed_at : Int
  language : Option String
  stargazers_count : Int
  open_issues_count : Int
  forks_count : Int
  topics : Option (List String)
  archived : Bool
  owner : Option (Option RawOwner)
deriving Repr, DecidableEq

/-- A raw user object from `GET /users/:username`, with the fields
`normalizeUser` reads (`name`/`bio` may be absent: `?? null`). -/
structure RawUser where
  login : String
  avatar_url : String
  html_url : String
  name : Option String
  bio : Option String
  followers : Int
  following : Int
  public_repos : Int
deriving Repr, DecidableEq

/-- Deployment configuration and the opaque JS string helpers (see header). -/
structure Config where
  username : String
  ttlMinutes : Nat
  historyDays : Nat
  refreshToken : String
  enc : String → String
  iso : Int → String
  dayStr : Int → String
  decodeBase64Utf8 : String → String
  sanitizeReadmeContent : String → String

/-- Embedding of `buildEmptyCommitHistory(days)` (server copy at lines
349-363; the identical exported copy in the client library has a default of
30 days): the loop runs `offset = days-1` down to `0`, so iteration `k`
(`k = 0, ..., days-1`) pushes the day `today - (days-1-k)` with
`commit_count: 0`. -/
def buildEmptyCommitHistory (today : Int) (days : Nat) : List CommitDayActivity :=
  (List.range days).map
    (fun k => { date := today - ((days - 1 - k : Nat) : Int), commit_count := 0 })

/-- Embedding of `normalizeUser`. -/
def normalizeUser (u : RawUser) : NormalizedUser :=
  { login := u.login
    avatar_url := u.avatar_url
    html_url := u.html_url
    name := u.name
    bio := u.bio
    followers := u.followers
    following := u.following
    public_repos := u.public_repos }

/-- Embedding of `normalizeRepo` (`topics` defaults to `[]` when not an
array, `archived` is coerced to a boolean). -/
def normalizeRepo (r : RawRepo) : NormalizedRepo :=
  { id := r.id
    name := r.name
    html_url := r.html_url
    description := r.description
    created_at := r.created_at
    updated_at := r.updated_at
    pushed_at := r.pushed_at
    language := r.language
    stargazers_count := r.stargazers_count
    open_issues_count := r.open_issues_count
    forks_count := r.forks_count
    topics := r.topics.getD []
    archived := r.archived }

/-- The repo sort `.sort((a, b) => Date.parse(b.pushed_at) -
Date.parse(a.pushed_at))`: stable sort, most recently pushed first. -/
def sortReposDesc (rs : List NormalizedRepo) : List NormalizedRepo :=
  List.mergeSort rs (fun a b => b.pushed_at ≤ a.pushed_at)

/-- Embedding of `buildPayload({ user, repos, readme, commitHistory })`:
stamps `meta` with the configured username, the build instant (`new
Date().toISOString()`, which `Date.parse` round-trips to the same
millisecond, hence `.parsed now`), the source marker `'github-api'`, and
the normalised TTL. -/
def buildPayload (cfg : Config) (now : Int) (user : NormalizedUser)
    (repos : List NormalizedRepo) (readme : String)
    (commitHistory : List CommitDayActivity) : Payload :=
  { meta :=
      { username := cfg.username
        fetched_at := .parsed now
        source := "github-api"
        cache_ttl_minutes := cfg.ttlMinutes }
    user := user
    repos := repos
    readme := readme
    commit_history := commitHistory }

/-- Embedding of `isPayloadFresh(payload)`: false when `fetched_at` is
missing/falsy or unparsable, else `Date.now() - fetchedAt <=
normalizedTtlMinutes * 60_000`. -/
def isPayloadFresh (ttlMinutes : Nat) (now : Int) (p : Payload) : Bool :=
  match p.meta.fetched_at with
  | .missing => false
  | .unparsable => false
  | .parsed t => decide (now - t ≤ (ttlMinutes : Int) * 60000)

/-- Outcome of `readFile` + `JSON.parse` on the local `repos` snapshot file,
the effects `loadRepoSnapshot` awaits: the file may be absent (read throws),
malformed (parse throws), parse to a non-array, or parse to an array of
repo objects (element shape as the source consumes it). -/
inductive SnapshotRead where
  | absent
  | malformed
  | notArray
  | arr (repos : List RawRepo)
deriving Repr, DecidableEq

/-- Embedding of `loadRepoSnapshot()`: both throws land in the `catch`
returning `null`, a non-array parse returns `null`, an array is returned. -/
def loadRepoSnapshot : SnapshotRead → Option (List RawRepo)
  | .absent => none
  | .malformed => none
  | .notArray => none
  | .arr rs => some rs

/-- Embedding of the owner heuristic in `buildFallbackPayloadFromSnapshot`:
`reposSnapshot.find((repo) => repo && typeof repo.owner === 'object')?.owner`
(matching also `owner: null`, since `typeof null === 'object'`). -/
def findSnapshotOwner (rs : List RawRepo) : Option RawOwner :=
  match rs.find? (fun r => r.owner.isSome) with
  | none => none
  | some r => r.owner.getD none

/-- Embedding of `buildFallbackPayloadFromSnapshot(reposSnapshot)`: `null`
unless the snapshot is a non-empty array; otherwise normalises and sorts the
repos, infers the login/avatar/profile URL from the first embedded `owner`
when present (else the configured username), and builds a payload with an
empty readme and a zero-filled commit history of the configured length.
`now`/`today` are the load instant (`new Date()` inside `buildPayload` /
`buildEmptyCommitHistory`). -/
def buildFallbackPayloadFromSnapshot (cfg : Config) (now today : Int) :
    Option (List RawRepo) → Option Payload
  | none => none
  | some [] => none
  | some (r0 :: rest) =>
    let snapshot := r0 :: rest
    let repos := sortReposDesc (snapshot.map normalizeRepo)
    let owner := findSnapshotOwner snapshot
    let login := (owner.bind (·.login)).getD cfg.username
    some (buildPayload cfg now
      { login := login
        avatar_url := (owner.bind (·.avatar_url)).getD
          ("https://avatars.githubusercontent.com/" ++ cfg.enc login)
        html_url := (owner.bind (·.html_url)).getD
          ("https://github.com/" ++ cfg.enc login)
        name := none
        bio := none
        followers := 0
        following := 0
        public_repos := repos.length }
      repos "" (buildEmptyCommitHistory today cfg.historyDays))

/-- The `/repos/:u/:u/readme` response fields `fetchFreshPayload` validates:
`encoding` and `content` (`content` is `none` when absent or not a string). -/
structure ReadmeResp where
  encoding : String
  content : Option String
deriving Repr, DecidableEq

/-- The `/users/:u/repos` response body: an array of repo objects, or any
non-array JSON value (the source guards with `Array.isArray`). -/
inductive ReposResp where
  | arr (repos : List RawRepo)
  | notArray
deriving Repr, DecidableEq

/-- Outcomes of the four upstream sub-fetches awaited by
`fetchFreshPayload`: the profile, the repository list and the readme (the
`Promise.all` triple) and the commit-history aggregation
(`fetchCommitHistory`), each either an error (rejected promise, with the
thrown message) or its response value. -/
structure SubFetches where
  user : Except String RawUser
  repos : Except String ReposResp
  readme : Except String ReadmeResp
  commitHistory : Except String (List CommitDayActivity)
deriving Repr

/-- Embedding of `fetchFreshPayload()`: awaits the `Promise.all` of the
profile, repo-list and readme fetches (any rejection rejects the whole
build; the triple is sequenced here, which agrees with `Promise.all` on
failure-vs-success), validates that the repos response is an array and the
readme is base64 with string content, then tries `fetchCommitHistory`,
falling back to `buildEmptyCommitHistory(normalizedHistoryDays)` if it
throws, and assembles the payload via `buildPayload`. -/
def fetchFreshPayload (cfg : Config) (now today : Int) (f : SubFetches) :
    Except String Payload :=
  match f.user with
  | .error e => .error e
  | .ok userResponse =>
    match f.repos with
    | .error e => .error e
    | .ok reposResponse =>
      match f.readme with
      | .error e => .error e
      | .ok readmeResponse =>
        match reposResponse with
        | .notArray => .error "Invalid GitHub repos response."
        | .arr rawRepos =>
          match readmeResponse.content with
          | none => .error "Unsupported README format from GitHub API."
          | some content =>
            if readmeResponse.encoding = "base64" then
              .ok (buildPayload cfg now (normalizeUser userResponse)
                (sortReposDesc (rawRepos.map normalizeRepo))
                (cfg.sanitizeReadmeContent (cfg.decodeBase64Utf8 content))
                (match f.commitHistory with
                 | .ok h => h
                 | .error _ => buildEmptyCommitHistory today cfg.historyDays))
            else .error "Unsupported README format from GitHub API."

/-- One execution of the refresh task that `refreshCache()` creates (lines
572-576): await `fetchFreshPayload`, on success write the payload to the
cache store and resolve with it; on failure reject without touching the
store.  The store is the single logical cached value (`writeCachedPayload`
with no Redis client, or an always-healthy backend); the single-flight
deduplication of `refreshCache` itself is modelled separately by `FStep`,
and store-level failures by `refreshCacheFull`. -/
def refreshCacheRun (upstream : Except String Payload) (store : Option Payload) :
    Except String Payload × Option Payload :=
  match upstream with
  | .ok p => (.ok p, some p)
  | .error e => (.error e, store)

/-- The `X-Cache-Status` header values the endpoints set. -/
inductive CacheStatus where
  | HIT
  | MISS
  | REFRESH
  | STALE
  | FALLBACK
deriving Repr, DecidableEq

/-- An HTTP response of the read endpoint: status code, the
`X-Cache-Status` header when set, and the JSON payload body (`none` for the
503 unavailable-service response, whose body is only a remediation
message). -/
structure GetResponse where
  httpStatus : Nat
  cacheStatus : Option CacheStatus
  body : Option Payload
deriving Repr, DecidableEq

/-- Result of one read-endpoint request: the response, the cache store
after the request, and whether the request invoked `refreshCache` (i.e.
reached the upstream-refresh tier at all). -/
structure GetResult where
  resp : GetResponse
  store : Option Payload
  refreshAttempted : Bool
deriving Repr, DecidableEq

/-- The miss/expired branch of the read endpoint (the `try`/`catch` from
line 606): attempt the coordinated refresh; on success respond `REFRESH`
(prior snapshot existed) or `MISS` (none); on failure respond `STALE` with
the prior snapshot if one exists, else try the local fallback (storing it
on success, status `FALLBACK`), else respond 503 with no payload.
`cached` is the value read at the top of the handler, which equals the
store at that point. -/
def handleGetMiss (cfg : Config) (now today : Int)
    (upstream : Except String Payload) (snap : SnapshotRead)
    (store : Option Payload) : GetResult :=
  match refreshCacheRun upstream store with
  | (.ok fresh, store') =>
    { resp :=
        { httpStatus := 200
          cacheStatus := some (if store.isSome then .REFRESH else .MISS)
          body := some fresh }
      store := store'
      refreshAttempted := true }
  | (.error _, store') =>
    match store with
    | some c =>
      { resp := { httpStatus := 200, cacheStatus := some .STALE, body := some c }
        store := store'
        refreshAttempted := true }
    | none =>
      match buildFallbackPayloadFromSnapshot cfg now today (loadRepoSnapshot snap) with
      | some fb =>
        { resp := { httpStatus := 200, cacheStatus := some .FALLBACK, body := some fb }
          store := some fb
          refreshAttempted := true }
      | none =>
        { resp := { httpStatus := 503, cacheStatus := none, body := none }
          store := store'
          refreshAttempted := true }

/-- Embedding of `app.get('/api/github-dashboard')` with a reliable store
(no Redis client, or a healthy backend; `handleGetFull` adds store
failures): read the cached payload, serve it with `HIT` when fresh, else
run the degradation chain of `handleGetMiss`.  `upstream` is the outcome
`fetchFreshPayload` would produce if invoked, `snap` the state of the local
snapshot file, `now`/`today` the request's wall-clock instant and UTC day. -/
def handleGet (cfg : Config) (now today : Int)
    (upstream : Except String Payload) (snap : SnapshotRead)
    (store : Option Payload) : GetResult :=
  match store with
  | some c =>
    if isPayloadFresh cfg.ttlMinutes now c then
      { resp := { httpStatus := 200, cacheStatus := some .HIT, body := some c }
        store := some c
        refreshAttempted := false }
    else handleGetMiss cfg now today upstream snap (some c)
  | none => handleGetMiss cfg now today upstream snap none

/-- Result of one manual-refresh request (`POST
/api/github-dashboard/refresh`): the HTTP status (401, 200 or 503), the
payload body on success, the store afterwards, and whether the coordinator
(`refreshCache`) was invoked. -/
structure PostResult where
  httpStatus : Nat
  cacheStatus : Option CacheStatus
  body : Option Payload
  store : Option Payload
  coordinatorCalled : Bool
deriving Repr, DecidableEq

/-- Embedding of `app.post('/api/github-dashboard/refresh')`: when
`CACHE_REFRESH_TOKEN` is configured (non-empty) and the `x-refresh-token`
header (`none` when absent) differs from it, respond 401 before touching
the coordinator; otherwise run `refreshCache` and respond 200/`REFRESH`
with the payload, or 503 on failure. -/
def handleRefreshPost (cfg : Config) (header : Option String)
    (upstream : Except String Payload) (store : Option Payload) : PostResult :=
  if cfg.refreshToken ≠ "" ∧ header ≠ some cfg.refreshToken then
    { httpStatus := 401
      cacheStatus := none
      body := none
      store := store
      coordinatorCalled := false }
  else
    match refreshCacheRun upstream store with
    | (.ok p, store') =>
      { httpStatus := 200
        cacheStatus := some .REFRESH
        body := some p
        store := store'
        coordinatorCalled := true }
    | (.error _, store') =>
      { httpStatus := 503
        cacheStatus := none
        body := none
        store := store'
        coordinatorCalled := true }

/-- State and behaviour of a connected Redis client: the value stored under
the cache key, and whether `get`/`set` currently reject (backend
unreachable after a successful startup connect). -/
structure RedisConn where
  value : Option Payload
  getFails : Bool
  setFails : Bool
deriving Repr, DecidableEq

/-- A store-backend rejection (the promise returned by `redisClient.get` /
`redisClient.set` rejecting). -/
inductive StoreErr where
  | redisGet
  | redisSet
deriving Repr, DecidableEq

/-- Embedding of `readCachedPayload()`: with a Redis client, await `get`
(no try/catch — a rejection propagates to the caller), returning `null`
for an empty key, else the parsed stored payload; with no client
(`REDIS_URL` unset or the startup connect failed), return `inMemoryCache`.
Note the Redis branch never falls through to the in-memory value. -/
def readCachedPayload (redis : Option RedisConn) (mem : Option Payload) :
    Except StoreErr (Option Payload) :=
  match redis with
  | some r => if r.getFails then .error .redisGet else .ok r.value
  | none => .ok mem

/-- Embedding of `writeCachedPayload(payload)`: with a Redis client, await
`set` (no try/catch — a rejection propagates and, because the assignment
follows the `await`, leaves `inMemoryCache` unchanged), then update the
in-memory copy; with no client, update only the in-memory copy.  Returns
the new (redis, memory) pair on success. -/
def writeCachedPayload (redis : Option RedisConn) (p : Payload) :
    Except StoreErr (Option RedisConn × Option Payload) :=
  match redis with
  | some r =>
    if r.setFails then .error .redisSet
    else .ok (some { r with value := some p }, some p)
  | none => .ok (none, some p)

/-- A rejection of the refresh task: the upstream build threw, or the
subsequent store write threw (the task body awaits `writeCachedPayload`,
so a store rejection rejects `refreshPromise` itself). -/
inductive RefreshErr where
  | upstream (msg : String)
  | store (e : StoreErr)
deriving Repr, DecidableEq

/-- One execution of the refresh task against the two-tier store: on
upstream success, attempt the cache write; a write rejection rejects the
refresh with the store error and leaves both store tiers unchanged. -/
def refreshCacheFull (upstream : Except String Payload)
    (redis : Option RedisConn) (mem : Option Payload) :
    Except RefreshErr Payload × Option RedisConn × Option Payload :=
  match upstream with
  | .error e => (.error (.upstream e), redis, mem)
  | .ok p =>
    match writeCachedPayload redis p with
    | .error se => (.error (.store se), redis, mem)
    | .ok (redis', mem') => (.ok p, redis', mem')

/-- The `try`/`catch` of the read handler against the two-tier store,
shared by the absent and expired paths; `cached` is the value read at the
top of the handler.  A refresh rejection — upstream or store-write — is
caught here and degraded; the fallback-tier `writeCachedPayload` sits
inside the `catch`, so its rejection escapes the handler. -/
def handleGetFullMiss (cfg : Config) (now today : Int)
    (upstream : Except String Payload) (snap : SnapshotRead)
    (redis : Option RedisConn) (mem : Option Payload)
    (cached : Option Payload) :
    Except StoreErr (GetResponse × Option RedisConn × Option Payload) :=
  match refreshCacheFull upstream redis mem with
  | (.ok fresh, redis', mem') =>
    .ok ({ httpStatus := 200
           cacheStatus := some (if cached.isSome then .REFRESH else .MISS)
           body := some fresh }, redis', mem')
  | (.error _, redis', mem') =>
    match cached with
    | some c =>
      .ok ({ httpStatus := 200, cacheStatus := some .STALE, body := some c },
        redis', mem')
    | none =>
      match buildFallbackPayloadFromSnapshot cfg now today (loadRepoSnapshot snap) with
      | some fb =>
        match writeCachedPayload redis' fb with
        | .error e => .error e
        | .ok (redis'', mem'') =>
          .ok ({ httpStatus := 200, cacheStatus := some .FALLBACK, body := some fb },
            redis'', mem'')
      | none =>
        .ok ({ httpStatus := 503, cacheStatus := none, body := none },
          redis', mem')

/-- Embedding of `app.get('/api/github-dashboard')` with the two-tier store
and its failure modes.  `const cached = await readCachedPayload()` sits
outside the `try`, so a read rejection escapes the handler (`.error`: the
request ends in a hard failure, no degradation); otherwise serve `HIT` when
fresh, else run the degradation chain of `handleGetFullMiss`. -/
def handleGetFull (cfg : Config) (now today : Int)
    (upstream : Except String Payload) (snap : SnapshotRead)
    (redis : Option RedisConn) (mem : Option Payload) :
    Except StoreErr (GetResponse × Option RedisConn × Option Payload) :=
  match readCachedPayload redis mem with
  | .error e => .error e
  | .ok cached =>
    match cached with
    | some c =>
      if isPayloadFresh cfg.ttlMinutes now c then
        .ok ({ httpStatus := 200, cacheStatus := some .HIT, body := some c },
          redis, mem)
      else handleGetFullMiss cfg now today upstream snap redis mem (some c)
    | none => handleGetFullMiss cfg now today upstream snap redis mem none

/-- A JSON value, for stating what `res.json(payload)` serialises. -/
inductive Json where
  | str (s : String)
  | num (n : Int)
  | bool (b : Bool)
  | null
  | arr (xs : List Json)
  | obj (fields : List (String × Json))

/-- The keys of a top-level JSON object (empty for non-objects). -/
def Json.topKeys : Json → List String
  | .obj fs => fs.map (·.1)
  | _ => []

/-- JSON rendering of an optional string (`null` when absent). -/
def jsonOptStr : Option String → Json
  | some s => .str s
  | none => .null

/-- JSON rendering of the `fetched_at` field; payloads built by
`buildPayload` always carry `.parsed`, rendered with the ISO formatter. -/
def FetchedAt.toJson (iso : Int → String) : FetchedAt → Json
  | .parsed t => .str (iso t)
  | .missing => .null
  | .unparsable => .str ""

/-- JSON serialisation of the `meta` block, field for field as
`buildPayload` constructs the object literal. -/
def PayloadMeta.toJson (cfg : Config) (m : PayloadMeta) : Json :=
  .obj
    [("username", .str m.username),
     ("fetched_at", m.fetched_at.toJson cfg.iso),
     ("source", .str m.source),
     ("cache_ttl_minutes", .num m.cache_ttl_minutes)]

/-- JSON serialisation of a normalised user. -/
def NormalizedUser.toJson (u : NormalizedUser) : Json :=
  .obj
    [("login", .str u.login),
     ("avatar_url", .str u.avatar_url),
     ("html_url", .str u.html_url),
     ("name", jsonOptStr u.name),
     ("bio", jsonOptStr u.bio),
     ("followers", .num u.followers),
     ("following", .num u.following),
     ("public_repos", .num u.public_repos)]

/-- JSON serialisation of a normalised repo; `pushed_at` is rendered with
the configured ISO formatter (it was parsed from the upstream string). -/
def NormalizedRepo.toJson (cfg : Config) (r : NormalizedRepo) : Json :=
  .obj
    [("id", .num r.id),
     ("name", .str r.name),
     ("html_url", .str r.html_url),
     ("description", jsonOptStr r.description),
     ("created_at", .str r.created_at),
     ("updated_at", .str r.updated_at),
     ("pushed_at", .str (cfg.iso r.pushed_at)),
     ("language", jsonOptStr r.language),
     ("stargazers_count", .num r.stargazers_count),
     ("open_issues_count", .num r.open_issues_count),
     ("forks_count", .num r.forks_count),
     ("topics", .arr (r.topics.map .str)),
     ("archived", .bool r.archived)]

/-- JSON serialisation of one commit-history day (`date` rendered with the
configured `formatUtcDate`). -/
def CommitDayActivity.toJson (cfg : Config) (d : CommitDayActivity) : Json :=
  .obj [("date", .str (cfg.dayStr d.date)), ("commit_count", .num d.commit_count)]

/-- The JSON document `res.json(payload)` sends for a payload built by
`buildPayload`: `meta` plus the four data fields at top level, in the order
of the object literal. -/
def Payload.toJson (cfg : Config) (p : Payload) : Json :=
  .obj
    [("meta", p.meta.toJson cfg),
     ("user", p.user.toJson),
     ("repos", .arr (p.repos.map (NormalizedRepo.toJson cfg))),
     ("readme", .str p.readme),
     ("commit_history", .arr (p.commit_history.map (CommitDayActivity.toJson cfg)))]

/-- Modelled from the spec (section 6, for the refinement check of the
snapshot JSON shape, not from the source): a JSON document of shape
`\x7b meta: \x7b identity, fetched_at, source, ttl_minutes \x7d, payload:
\x7b...\x7d \x7d` — a top-level object holding exactly a `meta` object with
those four keys and a `payload` object with the cached data. -/
def SpecSnapshotShape (j : Json) : Prop :=
  ∃ metaFields payloadFields,
    j = .obj [("meta", .obj metaFields), ("payload", .obj payloadFields)] ∧
    metaFields.map (·.1) = ["identity", "fetched_at", "source", "ttl_minutes"]

/-- What a logical caller of `refreshCache()` (a read request's miss path,
the manual-refresh endpoint, or a scheduler tick — the function is the same
for all) has observed so far: not yet entered, awaiting the shared promise
`p`, or resumed with a result. -/
inductive CallerPhase where
  | idle
  | waiting (p : Nat)
  | done (r : Except String Payload)
deriving Repr

/-- State of the single-flight machinery of `refreshCache` for one process:
`flight` is the module-level `refreshPromise` (promise ids are allocated
from `nextId`), `fetches` records the promises for which an upstream
`fetchFreshPayload()` call was actually started, `completedRefreshes` the
promises that have settled, and `callers` the phase of each logical caller.
Interleaving happens only at `await` points (Node's event loop runs each
synchronous segment atomically), so entering `refreshCache` — the
check of `refreshPromise`, its assignment, and the synchronous start of the
upstream fetch inside the async IIFE — is one atomic step. -/
structure FlightState where
  flight : Option Nat
  nextId : Nat
  fetches : List Nat
  completedRefreshes : List Nat
  callers : List CallerPhase
deriving Repr

/-- How the settlement of promise `p` with result `r` resumes one caller:
every caller awaiting `p` receives `r`; others are untouched. -/
def resolveWaiter (p : Nat) (r : Except String Payload) :
    CallerPhase → CallerPhase
  | .waiting q => if q = p then .done r else .waiting q
  | c => c

/-- Small-step semantics of `refreshCache()` (lines 567-583), parameterised
by `res`, the result each refresh attempt would settle with.
* `start`: a caller enters while `refreshPromise` is null — it allocates
  the promise, stores it in `refreshPromise`, and the IIFE synchronously
  starts the upstream fetch; the caller then awaits the promise.
* `join`: a caller enters while `refreshPromise` is set — it returns that
  same promise (awaiting it), starting nothing.
* `complete`: the outstanding refresh settles (fulfilment or rejection —
  `res p` may be `.ok` or `.error`); every awaiting caller resumes with its
  result, and the initiating caller's `finally` clears `refreshPromise`. -/
inductive FStep (res : Nat → Except String Payload) :
    FlightState → FlightState → Prop
  | start (i : Nat) (s : FlightState)
      (h1 : s.callers[i]? = some .idle) (h2 : s.flight = none) :
      FStep res s
        { flight := some s.nextId
          nextId := s.nextId + 1
          fetches := s.nextId :: s.fetches
          completedRefreshes := s.completedRefreshes
          callers := s.callers.set i (.waiting s.nextId) }
  | join (i p : Nat) (s : FlightState)
      (h1 : s.callers[i]? = some .idle) (h2 : s.flight = some p) :
      FStep res s { s with callers := s.callers.set i (.waiting p) }
  | complete (p : Nat) (s : FlightState) (h2 : s.flight = some p) :
      FStep res s
        { flight := none
          nextId := s.nextId
          fetches := s.fetches
          completedRefreshes := p :: s.completedRefreshes
          callers := s.callers.map (resolveWaiter p (res p)) }

/-- Process start: `refreshPromise = null`, no fetch started, `n` logical
callers none of which has entered yet. -/
def initFlight (n : Nat) : FlightState :=
  { flight := none
    nextId := 0
    fetches := []
    completedRefreshes := []
    callers := List.replicate n .idle }

/-- The states a process with `n` logical callers can reach. -/
def ReachableFlight (res : Nat → Except String Payload) (n : Nat)
    (s : FlightState) : Prop :=
  Relation.ReflTransGen (FStep res) (initFlight n) s

/-- The structural invariant of the single-flight machinery: fetched
promise ids are below the allocator, settled refreshes were fetched, an
unsettled fetched refresh is exactly the one held in `refreshPromise`, and
every awaited promise is the held, unsettled one. -/
def FlightInv (s : FlightState) : Prop :=
  (∀ q ∈ s.fetches, q < s.nextId) ∧
  (∀ q ∈ s.completedRefreshes, q ∈ s.fetches) ∧
  (∀ q ∈ s.fetches, q ∉ s.completedRefreshes → s.flight = some q) ∧
  (∀ p, s.flight = some p → p ∈ s.fetches ∧ p ∉ s.completedRefreshes) ∧
  (∀ (i p : Nat), s.callers[i]? = some (CallerPhase.waiting p) → s.flight = some p)

/-  Concrete sample values used by witnesses and counterexamples. -/

/-- A concrete deployment configuration (opaque JS helpers instantiated
with simple concrete functions; no theorem depends on their behaviour). -/
def cfg0 : Config :=
  { username := "nyxnix"
    ttlMinutes := 30
    historyDays := 3
    refreshToken := "secret"
    enc := fun s => s
    iso := fun _ => "1970-01-01T00:00:00.000Z"
    dayStr := fun _ => "1970-01-01"
    decodeBase64Utf8 := fun s => s
    sanitizeReadmeContent := fun s => s }

/-- A concrete normalised user. -/
def user0 : NormalizedUser :=
  { login := "nyxnix"
    avatar_url := "a"
    html_url := "h"
    name := none
    bio := none
    followers := 0
    following := 0
    public_repos := 0 }

/-- A concrete raw user giving `user0` under `normalizeUser`. -/
def rawUser0 : RawUser :=
  { login := "nyxnix"
    avatar_url := "a"
    html_url := "h"
    name := none
    bio := none
    followers := 0
    following := 0
    public_repos := 0 }

/-- A concrete raw repo (with an embedded owner object). -/
def rawRepo0 : RawRepo :=
  { id := 1
    name := "r"
    html_url := "u"
    description := none
    created_at := "c"
    updated_at := "m"
    pushed_at := 5
    language := none
    stargazers_count := 2
    open_issues_count := 0
    forks_count := 0
    topics := none
    archived := false
    owner := some (some { login := some "nyxnix", avatar_url := none, html_url := none }) }

/-- A concrete payload built at instant 0. -/
def p0 : Payload := buildPayload cfg0 0 user0 [] "readme" []

/-- A concrete payload built at instant 1 (a distinct "fresh" result). -/
def p1 : Payload := buildPayload cfg0 1 user0 [] "readme2" []

/-  Shared facts about `buildEmptyCommitHistory`. -/

/-- The zero-filled history has exactly `days` entries. -/
theorem buildEmptyCommitHistory_length (today : Int) (days : Nat) :
    (buildEmptyCommitHistory today days).length = days := by
  simp [buildEmptyCommitHistory]

/-- Entry `k` of the zero-filled history is day `today - (days - 1 - k)`
with zero commits. -/
theorem buildEmptyCommitHistory_getElem (today : Int) (days k : Nat)
    (hk : k < days) :
    (buildEmptyCommitHistory today days)[k]? =
      some { date := today - ((days - 1 - k : Nat) : Int), commit_count := 0 } := by
  simp [buildEmptyCommitHistory, List.getElem?_map, List.getElem?_range, hk]

/-- Every entry of the zero-filled history has `commit_count = 0`. -/
theorem buildEmptyCommitHistory_zero (today : Int) (days : Nat) :
    ∀ d ∈ buildEmptyCommitHistory today days, d.commit_count = 0 := by
  intro d hd
  simp only [buildEmptyCommitHistory, List.mem_map, List.mem_range] at hd
  obtain ⟨k, -, rfl⟩ := hd
  rfl

/-- The property bundle of claim C10 about `buildEmptyCommitHistory days`:
exactly `days` entries; entry `k` is the UTC day `today - (days - 1 - k)`
with zero commits (so the days are consecutive and ascending); consecutive
entries differ by one day; the final entry is the current UTC day; and all
counts are zero. -/
def EmptyHistorySpec (today : Int) (days : Nat) : Prop :=
  (buildEmptyCommitHistory today days).length = days ∧
  (∀ k : Nat, k < days →
    (buildEmptyCommitHistory today days)[k]? =
      some { date := today - ((days - 1 - k : Nat) : Int), commit_count := 0 }) ∧
  (∀ k : Nat, k + 1 < days → ∃ a b : CommitDayActivity,
    (buildEmptyCommitHistory today days)[k]? = some a ∧
    (buildEmptyCommitHistory today days)[k + 1]? = some b ∧
    b.date = a.date + 1) ∧
  (buildEmptyCommitHistory today days)[days - 1]? =
    some { date := today, commit_count := 0 } ∧
  (∀ d ∈ buildEmptyCommitHistory today days, d.commit_count = 0)

/-- C10: for every positive integer `days`, `buildEmptyCommitHistory(days)`
returns a list of exactly `days` entries, one per consecutive UTC calendar
day in ascending order ending at the current UTC date, each with
`commit_count` equal to 0 — the zero-filled history used both as the
degraded commit history and as the fallback snapshot's history. -/
theorem c10_empty_history (today : Int) (days : Nat) (h : 0 < days) :
    EmptyHistorySpec today days := by
  refine ⟨buildEmptyCommitHistory_length today days,
    fun k hk => buildEmptyCommitHistory_getElem today days k hk,
    fun k hk => ?_, ?_, buildEmptyCommitHistory_zero today days⟩
  · refine ⟨_, _, buildEmptyCommitHistory_getElem today days k (by omega),
      buildEmptyCommitHistory_getElem today days (k + 1) hk, ?_⟩
    simp only
    omega
  · have h0 : days - 1 - (days - 1) = 0 := Nat.sub_self _
    rw [buildEmptyCommitHistory_getElem today days (days - 1) (by omega), h0]
    simp

/-- Witness for C10 at `today = 0`, `days = 3`. -/
theorem c10_empty_history_witness : 0 < 3 ∧ EmptyHistorySpec 0 3 :=
  ⟨by decide, c10_empty_history 0 3 (by decide)⟩

/-- Every branch of the miss path invokes `refreshCache`. -/
theorem handleGetMiss_refreshAttempted (cfg : Config) (now today : Int)
    (upstream : Except String Payload) (snap : SnapshotRead)
    (store : Option Payload) :
    (handleGetMiss cfg now today upstream snap store).refreshAttempted = true := by
  rcases upstream with e | p
  · cases store with
    | some c => simp [handleGetMiss, refreshCacheRun]
    | none =>
      cases hfb : buildFallbackPayloadFromSnapshot cfg now today (loadRepoSnapshot snap) with
      | some fb => simp [handleGetMiss, refreshCacheRun, hfb]
      | none => simp [handleGetMiss, refreshCacheRun, hfb]
  · simp [handleGetMiss, refreshCacheRun]

/-- On an absent or expired snapshot the read endpoint reduces to the miss
path. -/
theorem handleGet_of_not_fresh (cfg : Config) (now today : Int)
    (upstream : Except String Payload) (snap : SnapshotRead)
    (store : Option Payload)
    (hmiss : store = none ∨
      ∃ c, store = some c ∧ isPayloadFresh cfg.ttlMinutes now c = false) :
    handleGet cfg now today upstream snap store =
      handleGetMiss cfg now today upstream snap store := by
  rcases hmiss with h | ⟨c, rfl, hc⟩
  · subst h; rfl
  · simp [handleGet, hc]

/-- The property bundle of claim C2, for a request whose cached snapshot is
absent or expired: the refresh tier is attempted; a successful refresh is
served as `REFRESH` (prior snapshot existed) or `MISS`; a failed refresh
with a prior snapshot serves it as `STALE`; a failed refresh with no prior
snapshot serves a successful local fallback as `FALLBACK` (storing it) and
otherwise responds 503; and a 503 occurs only when every tier failed, with
no payload in the body. -/
def DegradationSpec (cfg : Config) (now today : Int)
    (upstream : Except String Payload) (snap : SnapshotRead)
    (store : Option Payload) : Prop :=
  (handleGet cfg now today upstream snap store).refreshAttempted = true ∧
  (∀ p, upstream = .ok p →
    handleGet cfg now today upstream snap store =
      { resp := { httpStatus := 200
                  cacheStatus := some (if store.isSome then .REFRESH else .MISS)
                  body := some p }
        store := some p
        refreshAttempted := true }) ∧
  (∀ e c, upstream = .error e → store = some c →
    handleGet cfg now today upstream snap store =
      { resp := { httpStatus := 200, cacheStatus := some .STALE, body := some c }
        store := some c
        refreshAttempted := true }) ∧
  (∀ e, upstream = .error e → store = none →
    (∀ fb, buildFallbackPayloadFromSnapshot cfg now today (loadRepoSnapshot snap) = some fb →
      handleGet cfg now today upstream snap store =
        { resp := { httpStatus := 200, cacheStatus := some .FALLBACK, body := some fb }
          store := some fb
          refreshAttempted := true }) ∧
    (buildFallbackPayloadFromSnapshot cfg now today (loadRepoSnapshot snap) = none →
      handleGet cfg now today upstream snap store =
        { resp := { httpStatus := 503, cacheStatus := none, body := none }
          store := none
          refreshAttempted := true })) ∧
  ((handleGet cfg now today upstream snap store).resp.httpStatus = 503 →
    (handleGet cfg now today upstream snap store).resp.body = none ∧
    store = none ∧ (∃ e, upstream = .error e) ∧
    buildFallbackPayloadFromSnapshot cfg now today (loadRepoSnapshot snap) = none)

/-- C2: the get path degrades in exactly the claimed order when the cached
snapshot is absent or expired — coordinated refresh (`MISS`/`REFRESH`),
then the prior snapshot (`STALE`), then the local fallback (`FALLBACK`,
stored), and an unavailable-service response with no fabricated data only
when every tier fails. -/
theorem c2_degradation_order (cfg : Config) (now today : Int)
    (upstream : Except String Payload) (snap : SnapshotRead)
    (store : Option Payload)
    (hmiss : store = none ∨
      ∃ c, store = some c ∧ isPayloadFresh cfg.ttlMinutes now c = false) :
    DegradationSpec cfg now today upstream snap store := by
  have hg := handleGet_of_not_fresh cfg now today upstream snap store hmiss
  refine ⟨?_, ?_, ?_, ?_, ?_⟩
  · rw [hg]; exact handleGetMiss_refreshAttempted cfg now today upstream snap store
  · rintro p rfl
    rw [hg]
    simp [handleGetMiss, refreshCacheRun]
  · rintro e c rfl rfl
    rw [hg]
    simp [handleGetMiss, refreshCacheRun]
  · rintro e rfl rfl
    constructor
    · intro fb hfb
      rw [hg]
      simp [handleGetMiss, refreshCacheRun, hfb]
    · intro hfb
      rw [hg]
      simp [handleGetMiss, refreshCacheRun, hfb]
  · intro h503
    rw [hg] at h503
    rcases upstream with e | p
    · rcases hst : store with _ | c
      · subst hst
        cases hfb : buildFallbackPayloadFromSnapshot cfg now today (loadRepoSnapshot snap) with
        | some fb => simp [handleGetMiss, refreshCacheRun, hfb] at h503
        | none =>
          rw [hg]
          simp [handleGetMiss, refreshCacheRun, hfb]
      · subst hst
        simp [handleGetMiss, refreshCacheRun] at h503
    · simp [handleGetMiss, refreshCacheRun] at h503

/-- Witness for C2: an empty store with a working upstream serves `MISS`
and stores the result; an empty store with failing upstream and no local
snapshot file responds 503 with no body and leaves the store empty. -/
theorem c2_degradation_order_witness :
    handleGet cfg0 0 0 (.ok p0) .absent none =
      { resp := { httpStatus := 200, cacheStatus := some .MISS, body := some p0 }
        store := some p0
        refreshAttempted := true } ∧
    handleGet cfg0 0 0 (.error "boom") .absent none =
      { resp := { httpStatus := 503, cacheStatus := none, body := none }
        store := none
        refreshAttempted := true } :=
  ⟨(c2_degradation_order cfg0 0 0 (.ok p0) .absent none (Or.inl rfl)).2.1 p0 rfl,
   ((c2_degradation_order cfg0 0 0 (.error "boom") .absent none (Or.inl rfl)).2.2.2.1
      "boom" rfl rfl).2 rfl⟩

/-- The property bundle of claim C3: a present-and-fresh snapshot is served
as `HIT` with no refresh attempt (the response does not depend on the
upstream at all); freshness is exactly `now - fetched_at ≤ ttl * 60000` on
a parsable `fetched_at`; a missing or unparsable `fetched_at` is not fresh
and sends the request down the refresh path. -/
def FreshHitSpec (cfg : Config) (now today : Int)
    (upstream : Except String Payload) (snap : SnapshotRead) (c : Payload) : Prop :=
  (isPayloadFresh cfg.ttlMinutes now c = true →
    (handleGet cfg now today upstream snap (some c) =
      { resp := { httpStatus := 200, cacheStatus := some .HIT, body := some c }
        store := some c
        refreshAttempted := false } ∧
    (∀ upstream2 snap2, handleGet cfg now today upstream2 snap2 (some c) =
      handleGet cfg now today upstream snap (some c)))) ∧
  (∀ t : Int, c.meta.fetched_at = .parsed t →
    (isPayloadFresh cfg.ttlMinutes now c = true ↔
      now - t ≤ (cfg.ttlMinutes : Int) * 60000)) ∧
  ((c.meta.fetched_at = .missing ∨ c.meta.fetched_at = .unparsable) →
    isPayloadFresh cfg.ttlMinutes now c = false ∧
    (handleGet cfg now today upstream snap (some c)).refreshAttempted = true)

/-- C3: a cached snapshot with `now - fetched_at ≤ ttl_minutes * 60s` is
returned immediately with status `HIT` and no upstream build is initiated;
a snapshot whose `fetched_at` is missing or unparsable is treated as not
fresh and triggers the refresh path. -/
theorem c3_fresh_hit (cfg : Config) (now today : Int)
    (upstream : Except String Payload) (snap : SnapshotRead) (c : Payload) :
    FreshHitSpec cfg now today upstream snap c := by
  refine ⟨fun hf => ⟨?_, fun upstream2 snap2 => ?_⟩, fun t ht => ?_, fun hmu => ?_⟩
  · simp [handleGet, hf]
  · simp [handleGet, hf]
  · simp [isPayloadFresh, ht]
  · have hf : isPayloadFresh cfg.ttlMinutes now c = false := by
      rcases hmu with h | h <;> simp [isPayloadFresh, h]
    refine ⟨hf, ?_⟩
    have hg := handleGet_of_not_fresh cfg now today upstream snap (some c)
      (Or.inr ⟨c, rfl, hf⟩)
    rw [hg]
    exact handleGetMiss_refreshAttempted cfg now today upstream snap (some c)

/-- Witness for C3: the payload built at instant 0 is fresh at instant 0
(TTL 30 minutes) and is served as `HIT` without consulting the upstream. -/
theorem c3_fresh_hit_witness :
    isPayloadFresh cfg0.ttlMinutes 0 p0 = true ∧
    handleGet cfg0 0 0 (.error "upstream down") .absent (some p0) =
      { resp := { httpStatus := 200, cacheStatus := some .HIT, body := some p0 }
        store := some p0
        refreshAttempted := false } :=
  ⟨by decide,
   ((c3_fresh_hit cfg0 0 0 (.error "upstream down") .absent p0).1 (by decide)).1⟩

/-- The property bundle of claim C5: a failed refresh leaves the store
exactly as it was — the prior snapshot (which is then served as `STALE`
when expired) stays stored, and an empty store stays empty when the
fallback also fails — and the store changes only to a successful refresh's
payload or a successful fallback load's payload. -/
def NoMutationOnFailureSpec (cfg : Config) (now today : Int)
    (upstream : Except String Payload) (snap : SnapshotRead)
    (store : Option Payload) : Prop :=
  (∀ e, upstream = .error e →
    (refreshCacheRun upstream store).2 = store ∧
    (∀ c, store = some c →
      (handleGet cfg now today upstream snap store).store = some c ∧
      (isPayloadFresh cfg.ttlMinutes now c = false →
        (handleGet cfg now today upstream snap store).resp =
          { httpStatus := 200, cacheStatus := some .STALE, body := some c })) ∧
    (store = none →
      buildFallbackPayloadFromSnapshot cfg now today (loadRepoSnapshot snap) = none →
      (handleGet cfg now today upstream snap store).store = none)) ∧
  ((handleGet cfg now today upstream snap store).store ≠ store →
    (∃ p, upstream = .ok p ∧
      (handleGet cfg now today upstream snap store).store = some p) ∨
    (∃ fb, buildFallbackPayloadFromSnapshot cfg now today (loadRepoSnapshot snap) = some fb ∧
      (handleGet cfg now today upstream snap store).store = some fb))

/-- C5: a failed refresh never mutates the cache store — every prior
snapshot is left stored and served unchanged (status `STALE`), an empty
store stays empty when refresh and fallback both fail, and only a
successful refresh or a successful fallback load writes to the store. -/
theorem c5_failed_refresh_preserves_store (cfg : Config) (now today : Int)
    (upstream : Except String Payload) (snap : SnapshotRead)
    (store : Option Payload) :
    NoMutationOnFailureSpec cfg now today upstream snap store := by
  constructor
  · rintro e rfl
    refine ⟨rfl, ?_, ?_⟩
    · rintro c rfl
      by_cases hc : isPayloadFresh cfg.ttlMinutes now c
      · constructor
        · simp [handleGet, hc]
        · intro hc'; rw [hc] at hc'; cases hc'
      · constructor
        · simp [handleGet, hc, handleGetMiss, refreshCacheRun]
        · intro _
          simp [handleGet, hc, handleGetMiss, refreshCacheRun]
    · rintro rfl hfb
      simp [handleGet, handleGetMiss, refreshCacheRun, hfb]
  · intro hne
    rcases upstream with e | p
    · rcases hst : store with _ | c
      · subst hst
        cases hfb : buildFallbackPayloadFromSnapshot cfg now today (loadRepoSnapshot snap) with
        | some fb =>
          refine Or.inr ⟨fb, rfl, ?_⟩
          simp [handleGet, handleGetMiss, refreshCacheRun, hfb]
        | none =>
          exact absurd (by simp [handleGet, handleGetMiss, refreshCacheRun, hfb]) hne
      · subst hst
        by_cases hc : isPayloadFresh cfg.ttlMinutes now c
        · exact absurd (by simp [handleGet, hc]) hne
        · exact absurd (by simp [handleGet, hc, handleGetMiss, refreshCacheRun]) hne
    · rcases hst : store with _ | c
      · subst hst
        refine Or.inl ⟨p, rfl, ?_⟩
        simp [handleGet, handleGetMiss, refreshCacheRun]
      · subst hst
        by_cases hc : isPayloadFresh cfg.ttlMinutes now c
        · exact absurd (by simp [handleGet, hc]) hne
        · refine Or.inl ⟨p, rfl, ?_⟩
          simp [handleGet, hc, handleGetMiss, refreshCacheRun]

/-- Witness for C5: with an expired prior snapshot (`p0` at instant
1800001ms, past the 30-minute TTL) and a failing upstream, the store still
holds `p0` and the response is `STALE p0`; with an empty store, failing
upstream and no snapshot file, the store stays empty. -/
theorem c5_failed_refresh_preserves_store_witness :
    (handleGet cfg0 1800001 0 (.error "rate limited") .absent (some p0)).store = some p0 ∧
    (handleGet cfg0 1800001 0 (.error "rate limited") .absent (some p0)).resp =
      { httpStatus := 200, cacheStatus := some .STALE, body := some p0 } ∧
    (handleGet cfg0 1800001 0 (.error "rate limited") .absent none).store = none :=
  ⟨(((c5_failed_refresh_preserves_store cfg0 1800001 0 (.error "rate limited") .absent
      (some p0)).1 "rate limited" rfl).2.1 p0 rfl).1,
   (((c5_failed_refresh_preserves_store cfg0 1800001 0 (.error "rate limited") .absent
      (some p0)).1 "rate limited" rfl).2.1 p0 rfl).2 (by decide),
   ((c5_failed_refresh_preserves_store cfg0 1800001 0 (.error "rate limited") .absent
      none).1 "rate limited" rfl).2.2 rfl rfl⟩

/-- The property bundle of claim C6: a failure of any of the three required
sub-fetches fails the whole build; a failed build writes nothing through
the refresh task; and a failure of only the commit-history sub-fetch still
yields a successful build whose commit history is the zero-filled history
of the configured length. -/
def BuilderSpec (cfg : Config) (now today : Int) (f : SubFetches) : Prop :=
  (∀ e : String,
    (f.user = .error e ∨ f.repos = .error e ∨ f.readme = .error e) →
    ∃ e', fetchFreshPayload cfg now today f = .error e') ∧
  (∀ e store, fetchFreshPayload cfg now today f = .error e →
    (refreshCacheRun (fetchFreshPayload cfg now today f) store).2 = store) ∧
  (∀ u rs rd, f.user = .ok u → f.repos = .ok (.arr rs) → f.readme = .ok rd →
    rd.encoding = "base64" → ∀ s, rd.content = some s →
    ∀ e, f.commitHistory = .error e →
    fetchFreshPayload cfg now today f =
      .ok (buildPayload cfg now (normalizeUser u)
        (sortReposDesc (rs.map normalizeRepo))
        (cfg.sanitizeReadmeContent (cfg.decodeBase64Utf8 s))
        (buildEmptyCommitHistory today cfg.historyDays)) ∧
    (buildEmptyCommitHistory today cfg.historyDays).length = cfg.historyDays ∧
    (∀ d ∈ buildEmptyCommitHistory today cfg.historyDays, d.commit_count = 0))

/-- C6: the snapshot builder fails as a unit when the profile,
repository-list or readme fetch fails (producing and storing nothing), and
degrades to the zero-filled commit history of the configured length when
only the recent-activity fetch fails. -/
theorem c6_builder_unit_failure (cfg : Config) (now today : Int) (f : SubFetches) :
    BuilderSpec cfg now today f := by
  refine ⟨?_, ?_, ?_⟩
  · intro e he
    rcases hu : f.user with eu | u
    · exact ⟨eu, by simp [fetchFreshPayload, hu]⟩
    · rcases hr : f.repos with er | rr
      · exact ⟨er, by simp [fetchFreshPayload, hu, hr]⟩
      · rcases hd : f.readme with ed | rd
        · exact ⟨ed, by simp [fetchFreshPayload, hu, hr, hd]⟩
        · rcases he with h | h | h
          · rw [hu] at h; cases h
          · rw [hr] at h; cases h
          · rw [hd] at h; cases h
  · intro e store hfail
    rw [hfail]
    rfl
  · intro u rs rd hu hr hd henc s hs e hch
    refine ⟨?_, buildEmptyCommitHistory_length today cfg.historyDays,
      buildEmptyCommitHistory_zero today cfg.historyDays⟩
    simp [fetchFreshPayload, hu, hr, hd, hs, henc, hch]

/-- Witness for C6: a concrete set of sub-fetch outcomes whose only failure
is the commit-history fetch yields a successful build with the 3-day
zero-filled history, and a failing profile fetch fails the build. -/
theorem c6_builder_unit_failure_witness :
    fetchFreshPayload cfg0 0 0
        { user := .ok rawUser0
          repos := .ok (.arr [rawRepo0])
          readme := .ok { encoding := "base64", content := some "x" }
          commitHistory := .error "events failed" } =
      .ok (buildPayload cfg0 0 (normalizeUser rawUser0)
        (sortReposDesc ([rawRepo0].map normalizeRepo))
        (cfg0.sanitizeReadmeContent (cfg0.decodeBase64Utf8 "x"))
        (buildEmptyCommitHistory 0 cfg0.historyDays)) ∧
    ∃ e', fetchFreshPayload cfg0 0 0
        { user := .error "profile fetch failed"
          repos := .ok (.arr [rawRepo0])
          readme := .ok { encoding := "base64", content := some "x" }
          commitHistory := .ok [] } = .error e' :=
  ⟨((c6_builder_unit_failure cfg0 0 0 _).2.2 rawUser0 [rawRepo0]
      { encoding := "base64", content := some "x" } rfl rfl rfl rfl "x" rfl
      "events failed" rfl).1,
   (c6_builder_unit_failure cfg0 0 0 _).1 "profile fetch failed" (Or.inl rfl)⟩

/-- The property bundle of claim C7: the fallback tier produces no snapshot
when the local data file is absent, malformed, not an array, or an empty
array, and every snapshot it does produce is stamped with the load instant
as its `fetched_at`. -/
def FallbackLoaderSpec (cfg : Config) (now today : Int) : Prop :=
  buildFallbackPayloadFromSnapshot cfg now today (loadRepoSnapshot .absent) = none ∧
  buildFallbackPayloadFromSnapshot cfg now today (loadRepoSnapshot .malformed) = none ∧
  buildFallbackPayloadFromSnapshot cfg now today (loadRepoSnapshot .notArray) = none ∧
  buildFallbackPayloadFromSnapshot cfg now today (loadRepoSnapshot (.arr [])) = none ∧
  (∀ snap p,
    buildFallbackPayloadFromSnapshot cfg now today (loadRepoSnapshot snap) = some p →
    p.meta.fetched_at = .parsed now)

/-- C7: the local fallback loader fails cleanly (no snapshot) whenever the
local data file is absent, malformed JSON, not an array or an empty array,
and every successfully loaded snapshot carries `fetched_at` equal to the
time of loading, not the original data's age. -/
theorem c7_fallback_loader (cfg : Config) (now today : Int) :
    FallbackLoaderSpec cfg now today := by
  refine ⟨rfl, rfl, rfl, rfl, ?_⟩
  intro snap p hp
  cases snap with
  | absent => cases hp
  | malformed => cases hp
  | notArray => cases hp
  | arr rs =>
    cases rs with
    | nil => cases hp
    | cons r rest =>
      simp only [loadRepoSnapshot, buildFallbackPayloadFromSnapshot,
        Option.some.injEq] at hp
      rw [← hp]
      rfl

/-- Witness for C7: the loader yields nothing for an absent file, and the
snapshot loaded at instant 5 from a one-repo file has `fetched_at =
parsed 5`. -/
theorem c7_fallback_loader_witness :
    buildFallbackPayloadFromSnapshot cfg0 5 0 (loadRepoSnapshot .absent) = none ∧
    (buildFallbackPayloadFromSnapshot cfg0 5 0
        (loadRepoSnapshot (.arr [rawRepo0]))).map (fun p => p.meta.fetched_at) =
      some (.parsed 5) := by
  refine ⟨(c7_fallback_loader cfg0 5 0).1, ?_⟩
  rcases h : buildFallbackPayloadFromSnapshot cfg0 5 0
      (loadRepoSnapshot (.arr [rawRepo0])) with _ | p
  · cases h
  · simpa using (c7_fallback_loader cfg0 5 0).2.2.2.2 (.arr [rawRepo0]) p h

/-- The property bundle of claim C8: with a configured credential, a
missing or mismatched `x-refresh-token` header is rejected with 401 before
the coordinator runs and with the store untouched; with no configured
credential the request always proceeds to the coordinator; an authorised
request serves the refreshed payload or a 503. -/
def ManualRefreshSpec (cfg : Config) (header : Option String)
    (upstream : Except String Payload) (store : Option Payload) : Prop :=
  (cfg.refreshToken ≠ "" → header ≠ some cfg.refreshToken →
    handleRefreshPost cfg header upstream store =
      { httpStatus := 401
        cacheStatus := none
        body := none
        store := store
        coordinatorCalled := false }) ∧
  (cfg.refreshToken = "" →
    (handleRefreshPost cfg header upstream store).coordinatorCalled = true) ∧
  ((cfg.refreshToken = "" ∨ header = some cfg.refreshToken) →
    (∀ p, upstream = .ok p →
      handleRefreshPost cfg header upstream store =
        { httpStatus := 200
          cacheStatus := some .REFRESH
          body := some p
          store := some p
          coordinatorCalled := true }) ∧
    (∀ e, upstream = .error e →
      handleRefreshPost cfg header upstream store =
        { httpStatus := 503
          cacheStatus := none
          body := none
          store := store
          coordinatorCalled := true }))

/-- C8: a manual-refresh request with a configured credential and a missing
or mismatched credential is rejected with Unauthorized before the
coordinator is invoked, leaving the cache store unchanged; with no
configured credential no check is performed and the request proceeds to
`force_refresh`. -/
theorem c8_manual_refresh_auth (cfg : Config) (header : Option String)
    (upstream : Except String Payload) (store : Option Payload) :
    ManualRefreshSpec cfg header upstream store := by
  refine ⟨fun htok hhdr => ?_, fun htok => ?_, fun hok => ?_⟩
  · simp [handleRefreshPost, htok, hhdr]
  · have hcond : ¬ (cfg.refreshToken ≠ "" ∧ header ≠ some cfg.refreshToken) := by
      simp [htok]
    rcases upstream with e | p <;>
      simp [handleRefreshPost, hcond, refreshCacheRun]
  · have hcond : ¬ (cfg.refreshToken ≠ "" ∧ header ≠ some cfg.refreshToken) := by
      rcases hok with h | h <;> simp [h]
    constructor
    · rintro p rfl
      simp [handleRefreshPost, hcond, refreshCacheRun]
    · rintro e rfl
      simp [handleRefreshPost, hcond, refreshCacheRun]

/-- Witness for C8: with the configured credential `"secret"`, a wrong
header and a missing header are both rejected with 401 leaving the store
unchanged, while the correct header proceeds and serves the refreshed
payload. -/
theorem c8_manual_refresh_auth_witness :
    handleRefreshPost cfg0 (some "wrong") (.ok p1) (some p0) =
      { httpStatus := 401
        cacheStatus := none
        body := none
        store := some p0
        coordinatorCalled := false } ∧
    handleRefreshPost cfg0 none (.ok p1) (some p0) =
      { httpStatus := 401
        cacheStatus := none
        body := none
        store := some p0
        coordinatorCalled := false } ∧
    handleRefreshPost cfg0 (some "secret") (.ok p1) (some p0) =
      { httpStatus := 200
        cacheStatus := some .REFRESH
        body := some p1
        store := some p1
        coordinatorCalled := true } :=
  ⟨(c8_manual_refresh_auth cfg0 (some "wrong") (.ok p1) (some p0)).1
      (by decide) (by decide),
   (c8_manual_refresh_auth cfg0 none (.ok p1) (some p0)).1
      (by decide) (by decide),
   ((c8_manual_refresh_auth cfg0 (some "secret") (.ok p1) (some p0)).2.2
      (Or.inr rfl)).1 p1 rfl⟩

/-- Counterexample to C9 as stated: the JSON document serialised for a
concretely built snapshot does not have the claimed shape
`\x7b meta, payload \x7d` — there is no `payload` key at all; the data
fields sit at top level next to `meta`. -/
theorem c9_snapshot_shape_counterexample :
    ¬ SpecSnapshotShape (Payload.toJson cfg0 p0) ∧
    "payload" ∉ (Payload.toJson cfg0 p0).topKeys := by
  constructor
  · rintro ⟨mf, pf, hj, -⟩
    have h1 : (Payload.toJson cfg0 p0).topKeys =
        ["meta", "user", "repos", "readme", "commit_history"] := rfl
    rw [hj] at h1
    simp [Json.topKeys] at h1
  · decide

/-- The property bundle of the amended claim C9: every snapshot built by
`buildPayload` serialises to an object whose `meta` holds exactly the
identity (`username`), the ISO-8601 build instant (`fetched_at`), the
source marker and the TTL in minutes (`cache_ttl_minutes`), while the
cached data is not nested under a `payload` key but appears as the four
top-level fields `user`, `repos`, `readme`, `commit_history` alongside
`meta`. -/
def SnapshotShapeSpec (cfg : Config) (now : Int) (user : NormalizedUser)
    (repos : List NormalizedRepo) (readme : String)
    (hist : List CommitDayActivity) : Prop :=
  (Payload.toJson cfg (buildPayload cfg now user repos readme hist)).topKeys =
    ["meta", "user", "repos", "readme", "commit_history"] ∧
  (PayloadMeta.toJson cfg (buildPayload cfg now user repos readme hist).meta).topKeys =
    ["username", "fetched_at", "source", "cache_ttl_minutes"] ∧
  (buildPayload cfg now user repos readme hist).meta =
    { username := cfg.username
      fetched_at := .parsed now
      source := "github-api"
      cache_ttl_minutes := cfg.ttlMinutes } ∧
  (buildPayload cfg now user repos readme hist).meta.fetched_at.toJson cfg.iso =
    .str (cfg.iso now)

/-- C9 (amended): every snapshot has a `meta` object containing exactly the
identity, an ISO-8601 `fetched_at`, a source marker and the TTL in minutes
— but the cached data is carried in the top-level fields `user`, `repos`,
`readme` and `commit_history` beside `meta`, not in a single `payload`
object. -/
theorem c9_snapshot_shape_amended (cfg : Config) (now : Int)
    (user : NormalizedUser) (repos : List NormalizedRepo) (readme : String)
    (hist : List CommitDayActivity) :
    SnapshotShapeSpec cfg now user repos readme hist :=
  ⟨rfl, rfl, rfl, rfl⟩

/-- Counterexample to C4 as stated: with a connected Redis client whose
`get` rejects, the read endpoint ends in a hard store error instead of the
cache-miss behaviour (which, with the same upstream, would be a 200 `MISS`
— second conjunct); and with a client whose `set` rejects, the refresh task
itself fails even though the upstream build succeeded (third conjunct). -/
theorem c4_store_error_counterexample :
    handleGetFull cfg0 0 0 (.ok p0) .absent
        (some { value := none, getFails := true, setFails := false }) none =
      .error .redisGet ∧
    handleGetFull cfg0 0 0 (.ok p0) .absent none none =
      .ok ({ httpStatus := 200, cacheStatus := some .MISS, body := some p0 },
        none, some p0) ∧
    (refreshCacheFull (.ok p0)
        (some { value := none, getFails := false, setFails := true }) none).1 =
      .error (.store .redisSet) :=
  ⟨rfl, rfl, rfl⟩

/-- The property bundle of the amended claim C4: with no Redis client (no
`REDIS_URL`, or the startup connection failed and was absorbed) the read
endpoint never raises a store error; with a connected client, a `get`
rejection escapes the read endpoint as a hard error, and a `set` rejection
makes the refresh fail — which the read endpoint then degrades like an
upstream failure, e.g. serving an expired prior snapshot as `STALE` with
both store tiers untouched. -/
def StoreFailureSpec (cfg : Config) (now today : Int)
    (upstream : Except String Payload) (snap : SnapshotRead)
    (redis : Option RedisConn) (mem : Option Payload) : Prop :=
  (redis = none →
    (handleGetFull cfg now today upstream snap none mem).isOk = true) ∧
  (∀ r, redis = some r → r.getFails = true →
    handleGetFull cfg now today upstream snap redis mem = .error .redisGet) ∧
  (∀ r c, redis = some r → r.getFails = false → r.setFails = true →
    r.value = some c → isPayloadFresh cfg.ttlMinutes now c = false →
    ∀ p, upstream = .ok p →
      (refreshCacheFull upstream redis mem).1 = .error (.store .redisSet) ∧
      handleGetFull cfg now today upstream snap redis mem =
        .ok ({ httpStatus := 200, cacheStatus := some .STALE, body := some c },
          redis, mem))

/-- C4 (amended): Redis unavailability is absorbed only at connection time
(the coordinator then runs on the in-memory cache and the read endpoint
never raises a store error); a read failure of a connected client surfaces
as a hard error on the read endpoint, and a write failure causes the
refresh to fail, which the read endpoint degrades through the stale tier
rather than surfacing the store error. -/
theorem c4_store_failure_amended (cfg : Config) (now today : Int)
    (upstream : Except String Payload) (snap : SnapshotRead)
    (redis : Option RedisConn) (mem : Option Payload) :
    StoreFailureSpec cfg now today upstream snap redis mem := by
  refine ⟨?_, ?_, ?_⟩
  · rintro rfl
    rcases upstream with e | p
    · cases mem with
      | some c =>
        by_cases hc : isPayloadFresh cfg.ttlMinutes now c
        · simp [handleGetFull, readCachedPayload, hc, Except.isOk, Except.toBool]
        · simp [handleGetFull, readCachedPayload, hc, handleGetFullMiss,
            refreshCacheFull, Except.isOk, Except.toBool]
      | none =>
        cases hfb : buildFallbackPayloadFromSnapshot cfg now today (loadRepoSnapshot snap) with
        | some fb =>
          simp [handleGetFull, readCachedPayload, handleGetFullMiss,
            refreshCacheFull, hfb, writeCachedPayload, Except.isOk, Except.toBool]
        | none =>
          simp [handleGetFull, readCachedPayload, handleGetFullMiss,
            refreshCacheFull, hfb, Except.isOk, Except.toBool]
    · cases mem with
      | some c =>
        by_cases hc : isPayloadFresh cfg.ttlMinutes now c
        · simp [handleGetFull, readCachedPayload, hc, Except.isOk, Except.toBool]
        · simp [handleGetFull, readCachedPayload, hc, handleGetFullMiss,
            refreshCacheFull, writeCachedPayload, Except.isOk, Except.toBool]
      | none =>
        simp [handleGetFull, readCachedPayload, handleGetFullMiss,
          refreshCacheFull, writeCachedPayload, Except.isOk, Except.toBool]
  · rintro r rfl hget
    simp [handleGetFull, readCachedPayload, hget]
  · rintro r c rfl hget hset hval hstale p rfl
    constructor
    · simp [refreshCacheFull, writeCachedPayload, hset]
    · simp [handleGetFull, readCachedPayload, hget, hval, hstale,
        handleGetFullMiss, refreshCacheFull, writeCachedPayload, hset]

/-- Witness for the amended C4: concrete instances — no client and empty
memory ends `ok`; a failing-`get` client hard-errors; a failing-`set`
client holding the expired `p0` degrades a successful upstream build to
`STALE p0` with the store untouched. -/
theorem c4_store_failure_amended_witness :
    (handleGetFull cfg0 0 0 (.ok p0) .absent none none).isOk = true ∧
    handleGetFull cfg0 0 0 (.ok p0) .absent
        (some { value := none, getFails := true, setFails := false }) none =
      .error .redisGet ∧
    handleGetFull cfg0 1800001 0 (.ok p1) .absent
        (some { value := some p0, getFails := false, setFails := true }) none =
      .ok ({ httpStatus := 200, cacheStatus := some .STALE, body := some p0 },
        some { value := some p0, getFails := false, setFails := true }, none) :=
  ⟨(c4_store_failure_amended cfg0 0 0 (.ok p0) .absent none none).1 rfl,
   (c4_store_failure_amended cfg0 0 0 (.ok p0) .absent
      (some { value := none, getFails := true, setFails := false }) none).2.1
      _ rfl rfl,
   ((c4_store_failure_amended cfg0 1800001 0 (.ok p1) .absent
      (some { value := some p0, getFails := false, setFails := true }) none).2.2
      _ p0 rfl rfl rfl rfl (by decide) p1 rfl).2⟩

/-- The initial state satisfies the single-flight invariant. -/
theorem flightInv_init (n : Nat) : FlightInv (initFlight n) := by
  refine ⟨?_, ?_, ?_, ?_, ?_⟩
  · intro q hq; cases hq
  · intro q hq; cases hq
  · intro q hq; cases hq
  · intro p hp; cases hp
  · intro i p h
    rw [show (initFlight n).callers = List.replicate n .idle from rfl,
      List.getElem?_replicate] at h
    split at h
    · cases h
    · cases h

/-- Every step of the single-flight machinery preserves the invariant. -/
theorem flightInv_step {res : Nat → Except String Payload}
    {s s' : FlightState} (hinv : FlightInv s) (hstep : FStep res s s') :
    FlightInv s' := by
  obtain ⟨h1, h2, h3, h4, h5⟩ := hinv
  cases hstep with
  | start i s hc hf =>
    have hlen : i < s.callers.length := (List.getElem?_eq_some.mp hc).1
    refine ⟨?_, ?_, ?_, ?_, ?_⟩
    · intro q hq
      show q < s.nextId + 1
      rcases List.mem_cons.mp hq with rfl | hq'
      · omega
      · have := h1 q hq'; omega
    · intro q hq
      exact List.mem_cons_of_mem _ (h2 q hq)
    · intro q hq hqc
      rcases List.mem_cons.mp hq with rfl | hq'
      · rfl
      · exact absurd (h3 q hq' hqc) (by rw [hf]; intro h; cases h)
    · intro p hp
      injection hp with hp'
      subst hp'
      refine ⟨List.mem_cons_self _ _, fun hmem => ?_⟩
      have := h1 _ (h2 _ hmem); omega
    · intro j p hj
      by_cases hij : i = j
      · subst hij
        rw [List.getElem?_set_self hlen] at hj
        injection hj with hj'
        injection hj' with hj''
        rw [hj'']
      · rw [List.getElem?_set_ne hij] at hj
        exact absurd (h5 j p hj) (by rw [hf]; intro h; cases h)
  | join i p s hc hf =>
    refine ⟨h1, h2, h3, h4, ?_⟩
    have hlen : i < s.callers.length := (List.getElem?_eq_some.mp hc).1
    intro j q hj
    by_cases hij : i = j
    · subst hij
      rw [List.getElem?_set_self hlen] at hj
      injection hj with hj'
      injection hj' with hj''
      rw [← hj'']
      exact hf
    · rw [List.getElem?_set_ne hij] at hj
      exact h5 j q hj
  | complete p s hf =>
    refine ⟨h1, ?_, ?_, ?_, ?_⟩
    · intro q hq
      rcases List.mem_cons.mp hq with rfl | hq'
      · exact (h4 q hf).1
      · exact h2 q hq'
    · intro q hq hqc
      have hqp : q ≠ p := fun h => hqc (h ▸ List.mem_cons_self _ _)
      have hqc' : q ∉ s.completedRefreshes :=
        fun h => hqc (List.mem_cons_of_mem _ h)
      have := h3 q hq hqc'
      rw [hf] at this
      injection this with this'
      exact absurd this'.symm hqp
    · intro q hq; cases hq
    · intro j q hj
      rw [List.getElem?_map] at hj
      rcases hcj : s.callers[j]? with _ | c
      · rw [hcj] at hj; cases hj
      · rw [hcj] at hj
        cases c with
        | idle => cases hj
        | done r => cases hj
        | waiting q' =>
          simp only [Option.map_some', Option.some.injEq, resolveWaiter] at hj
          by_cases hq'p : q' = p
          · rw [if_pos hq'p] at hj; cases hj
          · rw [if_neg hq'p] at hj
            injection hj with hj'
            have := h5 j q' hcj
            rw [hf] at this
            injection this with this'
            exact absurd this'.symm hq'p

/-- Every reachable state of the single-flight machinery satisfies the
invariant. -/
theorem flightInv_reachable {res : Nat → Except String Payload} {n : Nat}
    {s : FlightState} (h : ReachableFlight res n s) : FlightInv s := by
  induction h with
  | refl => exact flightInv_init n
  | tail _ hstep ih => exact flightInv_step ih hstep

/-- Once caller `i` awaits promise `p`, the only result it can ever resume
with is `res p`, the settlement value of that very promise. -/
theorem caller_receives_promise_result {res : Nat → Except String Payload}
    {s s' : FlightState} {i p : Nat}
    (hw : s.callers[i]? = some (.waiting p))
    (hsteps : Relation.ReflTransGen (FStep res) s s') :
    ∀ r : Except String Payload,
      s'.callers[i]? = some (.done r) → r = res p := by
  have key : s'.callers[i]? = some (.waiting p) ∨
      s'.callers[i]? = some (.done (res p)) := by
    induction hsteps with
    | refl => exact Or.inl hw
    | tail _ hstep ih =>
      rename_i t t' _
      cases hstep with
      | start j t hc hf =>
        have hij : j ≠ i := by
          intro h
          subst h
          rcases ih with h' | h' <;> rw [hc] at h' <;> cases h'
        rw [List.getElem?_set_ne hij]
        exact ih
      | join j q t hc hf =>
        have hij : j ≠ i := by
          intro h
          subst h
          rcases ih with h' | h' <;> rw [hc] at h' <;> cases h'
        rw [List.getElem?_set_ne hij]
        exact ih
      | complete q t hf =>
        rw [List.getElem?_map]
        rcases ih with h' | h'
        · rw [h']
          simp only [Option.map_some', resolveWaiter]
          by_cases hpq : p = q
          · subst hpq; rw [if_pos rfl]; exact Or.inr rfl
          · rw [if_neg hpq]; exact Or.inl rfl
        · rw [h']
          exact Or.inr rfl
  intro r hr
  rcases key with h' | h'
  · rw [hr] at h'; cases h'
  · rw [hr] at h'
    injection h' with h''
    injection h'' with h'''

/-- The property bundle of claim C1 at a reachable state `s` of the
single-flight machinery: (1) at most one refresh is in flight — any two
started-but-unsettled upstream fetches are the same one; (2) no step taken
while a refresh is outstanding starts a new upstream fetch; (3) a caller
entering while promise `p` is outstanding can only come to await that very
`p`; (4) any caller that awaited promise `p` and later resumed received
exactly `res p` — the settlement of the shared attempt, success or failure,
identical for every caller of that attempt; (5) any step that settles the
outstanding refresh clears the in-flight handle. -/
def SingleFlightSpec (res : Nat → Except String Payload) (s : FlightState) : Prop :=
  (∀ p q : Nat, p ∈ s.fetches → q ∈ s.fetches → p ∉ s.completedRefreshes →
    q ∉ s.completedRefreshes → p = q) ∧
  (∀ (p : Nat) (s' : FlightState), s.flight = some p → FStep res s s' →
    s'.fetches = s.fetches) ∧
  (∀ (i p q : Nat) (s' : FlightState), s.flight = some p → FStep res s s' →
    s.callers[i]? = some .idle → s'.callers[i]? = some (.waiting q) → q = p) ∧
  (∀ (i p : Nat) (r : Except String Payload) (s' : FlightState),
    s.callers[i]? = some (.waiting p) →
    Relation.ReflTransGen (FStep res) s s' →
    s'.callers[i]? = some (.done r) → r = res p) ∧
  (∀ (p : Nat) (s' : FlightState), s.flight = some p → FStep res s s' →
    p ∈ s'.completedRefreshes → s'.flight = none)

/-- C1: at most one refresh operation of `refreshCache` is in flight at any
time — a caller arriving while a refresh is outstanding (via the read
endpoint, the manual-refresh endpoint or the scheduler alike) starts no
second upstream fetch but awaits the outstanding operation and receives its
result (the same payload on success or the same failure), and the in-flight
handle is cleared after completion whether the refresh succeeded or
failed. -/
theorem c1_single_flight (res : Nat → Except String Payload) (n : Nat)
    (s : FlightState) (hreach : ReachableFlight res n s) :
    SingleFlightSpec res s := by
  obtain ⟨h1, h2, h3, h4, h5⟩ := flightInv_reachable hreach
  refine ⟨?_, ?_, ?_, ?_, ?_⟩
  · intro p q hp hq hpc hqc
    have hfp := h3 p hp hpc
    have hfq := h3 q hq hqc
    rw [hfp] at hfq
    injection hfq
  · intro p s' hf hstep
    cases hstep with
    | start i s hc hf' => rw [hf'] at hf; cases hf
    | join i q s hc hf' => rfl
    | complete q s hf' => rfl
  · intro i p q s' hf hstep hidle hwait
    cases hstep with
    | start j s hc hf' => rw [hf'] at hf; cases hf
    | join j q' s hc hf' =>
      by_cases hij : j = i
      · subst hij
        rw [List.getElem?_set_self (List.getElem?_eq_some.mp hc).1] at hwait
        injection hwait with h'
        injection h' with h''
        rw [hf'] at hf
        injection hf with hf''
        rw [← h'', hf'']
      · rw [List.getElem?_set_ne hij] at hwait
        rw [hidle] at hwait
        cases hwait
    | complete q' s hf' =>
      rw [List.getElem?_map, hidle] at hwait
      cases hwait
  · intro i p r s' hw hsteps hd
    exact caller_receives_promise_result hw hsteps r hd
  · intro p s' hf hstep hmem
    cases hstep with
    | start i s hc hf' => rw [hf'] at hf; cases hf
    | join i q s hc hf' =>
      exact absurd hmem (h4 p hf).2
    | complete q s hf' => rfl

/-- The concrete promise-settlement assignment used by the C1 witness:
every refresh attempt fails with the same upstream error. -/
def res0 : Nat → Except String Payload := fun _ => .error "upstream down"

/-- The state of a 2-caller process after caller 0 enters `refreshCache`
on an empty in-flight handle: promise 0 allocated and held, one upstream
fetch started, caller 0 awaiting promise 0, caller 1 not yet entered. -/
def flightS1 : FlightState :=
  { flight := some 0
    nextId := 1
    fetches := [0]
    completedRefreshes := []
    callers := [.waiting 0, .idle] }

/-- Witness for C1: `flightS1` is reached from the 2-caller initial state
by one `start` step, and the single-flight properties hold there. -/
theorem c1_single_flight_witness :
    ReachableFlight res0 2 flightS1 ∧ SingleFlightSpec res0 flightS1 :=
  have hreach : ReachableFlight res0 2 flightS1 :=
    Relation.ReflTransGen.single (FStep.start 0 (initFlight 2) rfl rfl)
  ⟨hreach, c1_single_flight res0 2 flightS1 hreach⟩

end Dashboard
